import Mathlib

/-!
Shallow embedding of the blog content service (comment/post aggregators).

The data model mirrors the Prisma entities (Post, PostStats, PostLike,
Comment, CommentLike, User); the database is a record of lists.  Mutating
service methods are modelled as functions `DB → args → (Except AppError α) × DB`:
the returned `DB` reflects every store write performed before a thrown
error (the service issues sequential store calls with no transaction).
Timestamps are `Nat` (epoch = 0); randomly generated identifiers are passed
as explicit arguments.
-/

deriving instance DecidableEq for Except

inductive AppError where
  | NotFound
  | Unauthorized
  | BadRequest
  | RecordNotFound
  | UniqueViolation
deriving DecidableEq, Repr

structure User where
  id : String
  username : String
deriving DecidableEq, Repr

structure Post where
  id : String
  userId : String
  slug : String
  title : String
  body : String
  createdAt : Nat
deriving DecidableEq, Repr

structure PostStats where
  postId : String
  likes : Nat
  commentsCount : Nat
deriving DecidableEq, Repr

structure PostLike where
  postId : String
  userId : String
deriving DecidableEq, Repr

structure Comment where
  id : String
  userId : String
  postId : String
  text : String
  parentCommentId : Option String
  level : Nat
  likes : Nat
  subCommentsCount : Nat
  createdAt : Nat
  updatedAt : Nat
  deletedAt : Option Nat
deriving DecidableEq, Repr

structure CommentLike where
  commentId : String
  userId : String
deriving DecidableEq, Repr

structure DB where
  users : List User
  posts : List Post
  postStats : List PostStats
  postLikes : List PostLike
  comments : List Comment
  commentLikes : List CommentLike
deriving DecidableEq, Repr

/-- Author summary selected by the `include: { user: { select: { id, username } } }`
clauses; both fields become null on masked comments. -/
structure UserSummary where
  id : Option String
  username : Option String
deriving DecidableEq, Repr

/-- Comment row as returned by the list query: joined author summary plus the
per-viewer `isLiked` flag merged by `mergeCommentLikeMap`. -/
structure CView where
  id : String
  userId : Option String
  postId : String
  text : String
  parentCommentId : Option String
  level : Nat
  likes : Nat
  subCommentsCount : Nat
  createdAt : Nat
  updatedAt : Nat
  deletedAt : Option Nat
  user : UserSummary
  isLiked : Bool
deriving DecidableEq, Repr

/-- Rendered comment after `hideDeletedComments`: a `CView` plus the explicit
`isDeleted` marker. -/
structure RView where
  id : String
  userId : Option String
  postId : String
  text : String
  parentCommentId : Option String
  level : Nat
  likes : Nat
  subCommentsCount : Nat
  createdAt : Nat
  updatedAt : Nat
  deletedAt : Option Nat
  user : UserSummary
  isLiked : Bool
  isDeleted : Bool
deriving DecidableEq, Repr

/-- Root comment carrying its direct replies, built by `groupSubComments`
(the source spreads the root row and adds a `subComments` array). -/
structure GroupedComment where
  comment : RView
  subComments : List RView
deriving DecidableEq, Repr

/-- Stable insertion of `x` into `l` with respect to the strict order `lt`:
`x` goes after every element it is not strictly below. -/
def ins (lt : α → α → Bool) (x : α) : List α → List α
  | [] => [x]
  | y :: ys => if lt x y then x :: y :: ys else y :: ins lt x ys

/-- Stable insertion sort, modelling the store's `orderBy` result order. -/
def insSort (lt : α → α → Bool) (l : List α) : List α :=
  l.foldl (fun acc x => ins lt x acc) []

/-- Order key of `orderBy: [{ createdAt: 'asc' }, { level: 'asc' }]`. -/
def commentLt (a b : Comment) : Bool :=
  decide (a.createdAt < b.createdAt) ||
    (a.createdAt == b.createdAt && decide (a.level < b.level))

/-- Order key of `orderBy: { createdAt: 'desc' }`. -/
def postLt (a b : Post) : Bool :=
  decide (b.createdAt < a.createdAt)

/-- Author summary join for a stored author id. -/
def userSummaryOf (db : DB) (uid : String) : UserSummary :=
  match db.users.find? (fun u => u.id == uid) with
  | some u => { id := some u.id, username := some u.username }
  | none => { id := none, username := none }

/-- CommentService.findComment (comment.service.ts:50-66): unique lookup,
NotFound when absent or soft-deleted. -/
def findComment (db : DB) (commentId : String) : Except AppError Comment :=
  match db.comments.find? (fun c => c.id == commentId) with
  | none => Except.error AppError.NotFound
  | some c =>
      if c.deletedAt.isSome then Except.error AppError.NotFound
      else Except.ok c

/-- Joined/merged view of one comment row: the `include user` select plus the
`isLiked` flag from `getCommentLikeMap`/`mergeCommentLikeMap`
(comment.service.ts:233-254); an anonymous viewer gets `isLiked = false`. -/
def toCView (db : DB) (viewerId : Option String) (c : Comment) : CView :=
  { id := c.id
    userId := some c.userId
    postId := c.postId
    text := c.text
    parentCommentId := c.parentCommentId
    level := c.level
    likes := c.likes
    subCommentsCount := c.subCommentsCount
    createdAt := c.createdAt
    updatedAt := c.updatedAt
    deletedAt := c.deletedAt
    user := userSummaryOf db c.userId
    isLiked :=
      match viewerId with
      | none => false
      | some uid => db.commentLikes.any (fun l => l.commentId == c.id && l.userId == uid) }

/-- Rendering of one comment row in hideDeletedComments: a live comment is
passed through with `isDeleted = false`; a soft-deleted one keeps its id,
parent link and level but has text, likes, author and timestamps zeroed. -/
def renderComment (c : CView) : RView :=
  match c.deletedAt with
  | none =>
      { id := c.id, userId := c.userId, postId := c.postId, text := c.text
        parentCommentId := c.parentCommentId, level := c.level, likes := c.likes
        subCommentsCount := c.subCommentsCount, createdAt := c.createdAt
        updatedAt := c.updatedAt, deletedAt := c.deletedAt, user := c.user
        isLiked := c.isLiked, isDeleted := false }
  | some _ =>
      { id := c.id, userId := none, postId := c.postId, text := ""
        parentCommentId := c.parentCommentId, level := c.level, likes := 0
        subCommentsCount := c.subCommentsCount, createdAt := 0
        updatedAt := 0, deletedAt := c.deletedAt
        user := { id := none, username := none }
        isLiked := c.isLiked, isDeleted := true }

/-- CommentService.hideDeletedComments (comment.service.ts:68-83): read-time
masking of soft-deleted comments. -/
def hideDeletedComments (l : List CView) : List RView :=
  l.map renderComment

/-- One step of the Map-building forEach in groupSubComments
(comment.service.ts:91-96): a falsy parentCommentId (null or empty string)
is skipped, otherwise the comment is pushed onto its parent's bucket. -/
def bucketStep (m : String → List RView) (c : RView) : String → List RView :=
  match c.parentCommentId with
  | none => m
  | some p =>
      if p = "" then m
      else fun k => if k = p then m k ++ [c] else m k

/-- The subCommentsMap of groupSubComments, as a total function with `[]` for
missing keys (the source reads `map.get(id) ?? []`). -/
def buildBuckets (l : List RView) : String → List RView :=
  l.foldl bucketStep (fun _ => [])

/-- CommentService.groupSubComments (comment.service.ts:85-104): roots are the
comments with parentCommentId strictly null; each root carries its bucket. -/
def groupSubComments (l : List RView) : List GroupedComment :=
  (l.filter (fun c => c.parentCommentId.isNone)).map
    (fun r => { comment := r, subComments := buildBuckets l r.id })

/-- CommentService.findComments (comment.service.ts:11-48): resolve post by
slug, fetch its comments ordered by (createdAt asc, level asc), merge viewer
like flags, mask deleted, group into the two-level tree. -/
def findComments (db : DB) (slug : String) (viewerId : Option String) :
    Except AppError (List GroupedComment) :=
  match db.posts.find? (fun p => p.slug == slug) with
  | none => Except.error AppError.NotFound
  | some post =>
      let rows := insSort commentLt (db.comments.filter (fun c => c.postId == post.id))
      let views := rows.map (toCView db viewerId)
      Except.ok (groupSubComments (hideDeletedComments views))

/-- Prisma `comment.update({ where: { id } })`: P2025 when no row matches,
otherwise the updated row is returned and every matching row rewritten. -/
def updateCommentById (db : DB) (cid : String) (g : Comment → Comment) :
    (Except AppError Comment) × DB :=
  match db.comments.find? (fun x => x.id == cid) with
  | none => (Except.error AppError.RecordNotFound, db)
  | some x =>
      (Except.ok (g x),
       { db with comments := db.comments.map (fun y => if y.id == cid then g y else y) })

/-- Rewrite applied to each stats row by a `where: { postId }` update: only
the matching row is replaced by its updated version. -/
def updWhere (pid : String) (g : PostStats → PostStats) (t : PostStats) : PostStats :=
  if t.postId == pid then g t else t

/-- Prisma `postStats.update({ where: { postId } })`: P2025 when no row
matches, otherwise the updated row is returned and matching rows rewritten. -/
def updatePostStatsByPostId (db : DB) (pid : String) (g : PostStats → PostStats) :
    (Except AppError PostStats) × DB :=
  match db.postStats.find? (fun s => s.postId == pid) with
  | none => (Except.error AppError.RecordNotFound, db)
  | some s =>
      (Except.ok (g s),
       { db with postStats := db.postStats.map (updWhere pid g) })

/-- CommentService.updatePostCommentsCount (comment.service.ts:157-171):
recompute the post's comment count from all its comments (no deletedAt
filter) and persist it on the stats row. -/
def updatePostCommentsCount (db : DB) (postId : String) : (Except AppError Nat) × DB :=
  let commentsCount := (db.comments.filter (fun c => c.postId == postId)).length
  match updatePostStatsByPostId db postId (fun s => { s with commentsCount := commentsCount }) with
  | (Except.error e, db1) => (Except.error e, db1)
  | (Except.ok _, db1) => (Except.ok commentsCount, db1)

/-- Fresh comment row as built by `prisma.comment.create` in createComment:
level defaults to 0 and is overridden for replies. -/
def newCommentRow (now : Nat) (newId userId text postId : String)
    (pcid : Option String) (lvl : Nat) : Comment :=
  { id := newId, userId := userId, postId := postId, text := text
    parentCommentId := pcid, level := lvl, likes := 0, subCommentsCount := 0
    createdAt := now, updatedAt := now, deletedAt := none }

/-- Counter maintenance after the insert in createComment
(comment.service.ts:136-154): for a reply, recompute the parent's
subCommentsCount from its children, then always recompute the post's
commentsCount. -/
def recountAfterCreate (db : DB) (c : Comment) (parent : Option Comment) :
    (Except AppError Comment) × DB :=
  match parent with
  | none =>
      match updatePostCommentsCount db c.postId with
      | (Except.error e, db1) => (Except.error e, db1)
      | (Except.ok _, db1) => (Except.ok c, db1)
  | some pc =>
      let n := (db.comments.filter (fun x => x.parentCommentId == some pc.id)).length
      match updateCommentById db pc.id (fun x => { x with subCommentsCount := n }) with
      | (Except.error e, db1) => (Except.error e, db1)
      | (Except.ok _, db1) =>
          match updatePostCommentsCount db1 c.postId with
          | (Except.error e, db2) => (Except.error e, db2)
          | (Except.ok _, db2) => (Except.ok c, db2)

/-- CommentService.createComment (comment.service.ts:106-155): resolve the
parent through findComment when given, set level = parent.level + 1 and
reject level ≥ 2 before inserting, then insert and recompute counters. -/
def createComment (db : DB) (now : Nat) (newId userId text postId : String)
    (parentCommentId : Option String) : (Except AppError Comment) × DB :=
  match parentCommentId with
  | none =>
      let c := newCommentRow now newId userId text postId none 0
      recountAfterCreate { db with comments := db.comments ++ [c] } c none
  | some pid =>
      match findComment db pid with
      | Except.error e => (Except.error e, db)
      | Except.ok parent =>
          if parent.level + 1 ≥ 2 then (Except.error AppError.BadRequest, db)
          else
            let c := newCommentRow now newId userId text postId (some parent.id) (parent.level + 1)
            recountAfterCreate { db with comments := db.comments ++ [c] } c (some parent)

/-- CommentService.deleteComment (comment.service.ts:187-201): author-only
soft delete; the update writes only the delete timestamp. -/
def deleteComment (db : DB) (now : Nat) (userId commentId : String) :
    (Except AppError Comment) × DB :=
  match findComment db commentId with
  | Except.error e => (Except.error e, db)
  | Except.ok c =>
      if c.userId == userId then
        updateCommentById db commentId (fun x => { x with deletedAt := some now })
      else (Except.error AppError.Unauthorized, db)

/-- Effect of the soft-delete update on one stored row: only the row with the
requested id is touched, and only its deletedAt field is written. -/
def markDeleted (now : Nat) (cid : String) (x : Comment) : Comment :=
  if x.id == cid then { x with deletedAt := some now } else x

/-- Number of PostLike join records for a post. -/
def countLikes (db : DB) (p : String) : Nat :=
  (db.postLikes.filter (fun l => l.postId == p)).length

/-- Number of PostLike join records for a (post, user) pair. -/
def countUserLikes (db : DB) (p u : String) : Nat :=
  (db.postLikes.filter (fun l => l.postId == p && l.userId == u)).length

/-- Update payload `data: { likes }` of updatePostLikes: write the recomputed
join-table count into a stats row. -/
def likesUpd (db : DB) (postId : String) (s : PostStats) : PostStats :=
  { s with likes := countLikes db postId }

/-- PostService.updatePostLikes (comment.service.ts:415-432): recompute the
stats row's likes from the authoritative join-table count. -/
def updatePostLikes (db : DB) (postId : String) : (Except AppError PostStats) × DB :=
  updatePostStatsByPostId db postId (likesUpd db postId)

/-- PostService.likePost (comment.service.ts:434-443): findUnique on the
(postId, userId) pair, insert the join record unless it already exists, then
recompute the cached count. -/
def likePost (db : DB) (userId postId : String) : (Except AppError PostStats) × DB :=
  match db.postLikes.find? (fun l => l.postId == postId && l.userId == userId) with
  | some _ => updatePostLikes db postId
  | none =>
      updatePostLikes
        { db with postLikes := db.postLikes ++ [{ postId := postId, userId := userId }] } postId

/-- PostService.unlikePost (comment.service.ts:445-458): findUnique on the
pair, delete the join record if present (unique key, so the first match),
then recompute. -/
def unlikePost (db : DB) (userId postId : String) : (Except AppError PostStats) × DB :=
  match db.postLikes.find? (fun l => l.postId == postId && l.userId == userId) with
  | some _ =>
      updatePostLikes
        { db with postLikes :=
            db.postLikes.eraseP (fun l => l.postId == postId && l.userId == userId) } postId
  | none => updatePostLikes db postId

/-- One like/unlike request against the post-like endpoints. -/
inductive LikeOp where
  | like (userId postId : String)
  | unlike (userId postId : String)
deriving DecidableEq, Repr

/-- State reached after one request; a failed request keeps the writes it made
before the error (no transaction wraps the store calls). -/
def applyLikeOp (db : DB) : LikeOp → DB
  | LikeOp.like u p => (likePost db u p).2
  | LikeOp.unlike u p => (unlikePost db u p).2

/-- Sequential execution of like/unlike requests. -/
def runLikeOps (db : DB) (ops : List LikeOp) : DB :=
  ops.foldl applyLikeOp db

/-- Every stats row caches the true join-table like count of its post. -/
def likesInvariant (db : DB) : Prop :=
  ∀ s ∈ db.postStats, s.likes = countLikes db s.postId

/-- Post row as returned by the paginated list query: author summary, stats
relation and per-viewer like flag (mergePostLiked). -/
structure PView where
  id : String
  userId : String
  slug : String
  title : String
  body : String
  createdAt : Nat
  user : UserSummary
  postStats : Option PostStats
  isLiked : Bool
deriving DecidableEq, Repr

/-- Result shape of findPostsByQuries. -/
structure PageResult where
  posts : List PView
  nextCursor : Option String
deriving DecidableEq, Repr

/-- Joined view of one post row. -/
def toPView (db : DB) (viewerId : Option String) (p : Post) : PView :=
  { id := p.id, userId := p.userId, slug := p.slug, title := p.title
    body := p.body, createdAt := p.createdAt
    user := userSummaryOf db p.userId
    postStats := db.postStats.find? (fun s => s.postId == p.id)
    isLiked :=
      match viewerId with
      | none => false
      | some uid => db.postLikes.any (fun l => l.postId == p.id && l.userId == uid) }

/-- PostService.findPostsByQuries (comment.service.ts:302-338): order posts by
createdAt descending, position at the cursor row when a cursor is given
(an unknown cursor yields the empty window), apply `skip: 1` unconditionally,
take 20, and expose the id of the 20th returned row as nextCursor. -/
def findPostsByQuries (db : DB) (cursor : Option String) (viewerId : Option String) :
    PageResult :=
  let size := 20
  let sorted := insSort postLt db.posts
  let positioned :=
    match cursor with
    | none => sorted
    | some c => sorted.dropWhile (fun p => p.id != c)
  let window := (positioned.drop 1).take size
  let postsWithLiked := window.map (toPView db viewerId)
  { posts := postsWithLiked, nextCursor := (postsWithLiked[size - 1]?).map (fun p => p.id) }

/-- Modelled from the spec: `slugify` lives in src/utils/slugify, which is not
included under src/; per the spec it "derives a URL slug from title",
modelled as lowercasing the title and hyphenating spaces. -/
def slugifyModel (t : String) : String :=
  String.mk (t.data.map (fun ch => if ch = ' ' then Char.ofNat 45 else ch.toLower))

/-- PostService.createPost (comment.service.ts:394-413): derive the slug, on an
existing slug append a generated suffix, create the post (the store enforces
slug uniqueness) and its initial zeroed stats row.  Modelled from the spec:
`generateId` (src/utils/slugify, not under src/) returns a short random id;
its randomness is modelled by passing the generated value `rid` explicitly. -/
def createPost (db : DB) (now : Nat) (newId rid userId title body : String) :
    (Except AppError Post) × DB :=
  let slug0 := slugifyModel title
  let slug :=
    if db.posts.any (fun p => p.slug == slug0) then slug0 ++ "-" ++ rid else slug0
  if db.posts.any (fun p => p.slug == slug) then (Except.error AppError.UniqueViolation, db)
  else
    let post : Post :=
      { id := newId, userId := userId, slug := slug, title := title, body := body, createdAt := now }
    let db1 := { db with posts := db.posts ++ [post] }
    if db1.postStats.any (fun s => s.postId == post.id) then
      (Except.error AppError.UniqueViolation, db1)
    else
      (Except.ok post,
       { db1 with postStats := db1.postStats ++ [{ postId := post.id, likes := 0, commentsCount := 0 }] })

/-! ## Concrete instances used by witnesses and counterexamples -/

/-- Store with a single post, for the pagination check. -/
def dbClaim1 : DB :=
  { users := []
    posts := [{ id := "p1", userId := "u1", slug := "s1", title := "t", body := "b", createdAt := 5 }]
    postStats := [], postLikes := [], comments := [], commentLikes := [] }

/-- Store with one post carrying a stats row and no likes yet. -/
def dbClaim2 : DB :=
  { users := [], posts := []
    postStats := [{ postId := "p1", likes := 0, commentsCount := 0 }]
    postLikes := [], comments := [], commentLikes := [] }

/-- State after `u1` likes `p1` in `dbClaim2`. -/
def dbClaim2b : DB :=
  { users := [], posts := []
    postStats := [{ postId := "p1", likes := 1, commentsCount := 0 }]
    postLikes := [{ postId := "p1", userId := "u1" }]
    comments := [], commentLikes := [] }

/-- Stats row returned by that first like. -/
def statsClaim2 : PostStats := { postId := "p1", likes := 1, commentsCount := 0 }

/-- Store with a live root comment `R`, a soft-deleted root `D`, a reply `S`
under `R`, and a stats row for post `p1`. -/
def dbClaim3 : DB :=
  { users := [], posts := []
    postStats := [{ postId := "p1", likes := 0, commentsCount := 3 }]
    postLikes := []
    comments :=
      [ { id := "R", userId := "u1", postId := "p1", text := "root", parentCommentId := none, level := 0
          likes := 0, subCommentsCount := 1, createdAt := 1, updatedAt := 1, deletedAt := none },
        { id := "D", userId := "u1", postId := "p1", text := "gone", parentCommentId := none, level := 0
          likes := 0, subCommentsCount := 0, createdAt := 2, updatedAt := 2, deletedAt := some 7 },
        { id := "S", userId := "u2", postId := "p1", text := "reply", parentCommentId := some "R", level := 1
          likes := 0, subCommentsCount := 0, createdAt := 3, updatedAt := 3, deletedAt := none } ]
    commentLikes := [] }

/-- Two rendered comment rows, the first soft-deleted, the second live. -/
def viewsClaim4 : List CView :=
  [ { id := "x", userId := some "u1", postId := "p1", text := "secret", parentCommentId := none
      level := 0, likes := 4, subCommentsCount := 0, createdAt := 8, updatedAt := 9, deletedAt := some 9
      user := { id := some "u1", username := some "alice" }, isLiked := true },
    { id := "y", userId := some "u2", postId := "p1", text := "hello", parentCommentId := some "x"
      level := 1, likes := 2, subCommentsCount := 0, createdAt := 10, updatedAt := 11, deletedAt := none
      user := { id := some "u2", username := some "bob" }, isLiked := false } ]

/-- The soft-deleted head of `viewsClaim4`. -/
def viewClaim4 : CView :=
  { id := "x", userId := some "u1", postId := "p1", text := "secret", parentCommentId := none
    level := 0, likes := 4, subCommentsCount := 0, createdAt := 8, updatedAt := 9, deletedAt := some 9
    user := { id := some "u1", username := some "alice" }, isLiked := true }

/-- Store for the grouping example: roots `A`, `B`, `C` (creation order), `B`
has replies `B1`, `B2`, and `C` is soft-deleted. -/
def dbClaim5 : DB :=
  { users := [{ id := "u1", username := "alice" }]
    posts := [{ id := "p1", userId := "u1", slug := "post-1", title := "t", body := "b", createdAt := 0 }]
    postStats := [], postLikes := []
    comments :=
      [ { id := "A", userId := "u1", postId := "p1", text := "a", parentCommentId := none, level := 0
          likes := 0, subCommentsCount := 0, createdAt := 1, updatedAt := 1, deletedAt := none },
        { id := "B", userId := "u1", postId := "p1", text := "b", parentCommentId := none, level := 0
          likes := 0, subCommentsCount := 2, createdAt := 2, updatedAt := 2, deletedAt := none },
        { id := "C", userId := "u1", postId := "p1", text := "c", parentCommentId := none, level := 0
          likes := 7, subCommentsCount := 0, createdAt := 3, updatedAt := 3, deletedAt := some 9 },
        { id := "B1", userId := "u1", postId := "p1", text := "b1", parentCommentId := some "B", level := 1
          likes := 0, subCommentsCount := 0, createdAt := 4, updatedAt := 4, deletedAt := none },
        { id := "B2", userId := "u1", postId := "p1", text := "b2", parentCommentId := some "B", level := 1
          likes := 0, subCommentsCount := 0, createdAt := 5, updatedAt := 5, deletedAt := none } ]
    commentLikes := [] }

/-- Author summary of `u1` in `dbClaim5`. -/
def aliceSummary : UserSummary := { id := some "u1", username := some "alice" }

/-- Store whose slugs already contain both the derived slug of "Hello" and its
suffixed variant for the generated id "x". -/
def dbClaim6 : DB :=
  { users := []
    posts :=
      [ { id := "p1", userId := "u1", slug := "hello", title := "Hello", body := "b", createdAt := 1 },
        { id := "p2", userId := "u1", slug := "hello-x", title := "Hello", body := "b", createdAt := 2 } ]
    postStats := [], postLikes := [], comments := [], commentLikes := [] }

/-- Store with only the first collision present, for the amended statement. -/
def dbClaim6b : DB :=
  { users := []
    posts := [{ id := "p1", userId := "u1", slug := "hello", title := "Hello", body := "b", createdAt := 1 }]
    postStats := [{ postId := "p1", likes := 0, commentsCount := 0 }]
    postLikes := [], comments := [], commentLikes := [] }

/-- Store with a stats row and one soft-deleted comment on the post. -/
def dbClaim7 : DB :=
  { users := [], posts := []
    postStats := [{ postId := "p1", likes := 0, commentsCount := 1 }]
    postLikes := []
    comments :=
      [ { id := "D", userId := "u1", postId := "p1", text := "dead", parentCommentId := none, level := 0
          likes := 0, subCommentsCount := 0, createdAt := 1, updatedAt := 1, deletedAt := some 5 } ]
    commentLikes := [] }

/-- Comment created on `dbClaim7`. -/
def commentClaim7 : Comment :=
  { id := "N", userId := "u2", postId := "p1", text := "hi", parentCommentId := none, level := 0
    likes := 0, subCommentsCount := 0, createdAt := 10, updatedAt := 10, deletedAt := none }

/-- State of `dbClaim7` after creating `commentClaim7`: the recomputed
commentsCount is 2, counting the soft-deleted comment as well. -/
def dbClaim7b : DB :=
  { users := [], posts := []
    postStats := [{ postId := "p1", likes := 0, commentsCount := 2 }]
    postLikes := []
    comments :=
      [ { id := "D", userId := "u1", postId := "p1", text := "dead", parentCommentId := none, level := 0
          likes := 0, subCommentsCount := 0, createdAt := 1, updatedAt := 1, deletedAt := some 5 },
        commentClaim7 ]
    commentLikes := [] }

/-- Store with one live and one soft-deleted comment for the lookup claim. -/
def dbClaim8 : DB :=
  { users := [], posts := [], postStats := [], postLikes := []
    comments :=
      [ { id := "L", userId := "u1", postId := "p1", text := "live", parentCommentId := none, level := 0
          likes := 0, subCommentsCount := 0, createdAt := 1, updatedAt := 1, deletedAt := none },
        { id := "G", userId := "u1", postId := "p1", text := "gone", parentCommentId := none, level := 0
          likes := 0, subCommentsCount := 0, createdAt := 2, updatedAt := 2, deletedAt := some 3 } ]
    commentLikes := [] }

/-- Rendered deleted row used by the lookup claim's witness. -/
def viewClaim8 : CView :=
  { id := "G", userId := some "u1", postId := "p1", text := "gone", parentCommentId := none
    level := 0, likes := 0, subCommentsCount := 0, createdAt := 2, updatedAt := 2, deletedAt := some 3
    user := { id := some "u1", username := some "alice" }, isLiked := false }

/-- Store with one live comment by `u1`, for the delete claim. -/
def dbClaim9 : DB :=
  { users := [], posts := []
    postStats := [{ postId := "p1", likes := 0, commentsCount := 2 }]
    postLikes := []
    comments :=
      [ { id := "K", userId := "u1", postId := "p1", text := "keep", parentCommentId := none, level := 0
          likes := 3, subCommentsCount := 1, createdAt := 1, updatedAt := 1, deletedAt := none },
        { id := "K2", userId := "u2", postId := "p1", text := "other", parentCommentId := some "K", level := 1
          likes := 0, subCommentsCount := 0, createdAt := 2, updatedAt := 2, deletedAt := none } ]
    commentLikes := [] }

/-- The live comment of `dbClaim9`. -/
def commentClaim9 : Comment :=
  { id := "K", userId := "u1", postId := "p1", text := "keep", parentCommentId := none, level := 0
    likes := 3, subCommentsCount := 1, createdAt := 1, updatedAt := 1, deletedAt := none }

/-- Rendered list with one root and one orphan reply whose parent is absent. -/
def listClaim10 : List RView :=
  [ { id := "r", userId := some "u1", postId := "p1", text := "root", parentCommentId := none
      level := 0, likes := 0, subCommentsCount := 0, createdAt := 1, updatedAt := 1, deletedAt := none
      user := { id := some "u1", username := some "alice" }, isLiked := false, isDeleted := false },
    { id := "o", userId := some "u2", postId := "p1", text := "orphan", parentCommentId := some "missing"
      level := 2, likes := 0, subCommentsCount := 0, createdAt := 2, updatedAt := 2, deletedAt := none
      user := { id := some "u2", username := some "bob" }, isLiked := false, isDeleted := false } ]

/-- The sole root of `listClaim10`. -/
def rootClaim10 : RView :=
  { id := "r", userId := some "u1", postId := "p1", text := "root", parentCommentId := none
    level := 0, likes := 0, subCommentsCount := 0, createdAt := 1, updatedAt := 1, deletedAt := none
    user := { id := some "u1", username := some "alice" }, isLiked := false, isDeleted := false }

/-- The single grouped entry produced from `listClaim10`. -/
def groupedClaim10 : GroupedComment :=
  { comment := rootClaim10, subComments := [] }

/-- The orphan element of `listClaim10`. -/
def orphanClaim10 : RView :=
  { id := "o", userId := some "u2", postId := "p1", text := "orphan", parentCommentId := some "missing"
    level := 2, likes := 0, subCommentsCount := 0, createdAt := 2, updatedAt := 2, deletedAt := none
    user := { id := some "u2", username := some "bob" }, isLiked := false, isDeleted := false }


/-! ## Helper lemmas -/

theorem updWhere_pos {pid : String} {g : PostStats → PostStats} {t : PostStats}
    (ht : (t.postId == pid) = true) : updWhere pid g t = g t := by
  simp [updWhere, ht]

theorem updWhere_neg {pid : String} {g : PostStats → PostStats} {t : PostStats}
    (ht : ¬ (t.postId == pid) = true) : updWhere pid g t = t := by
  simp [updWhere, ht]

theorem find?_append_some {α} {p : α → Bool} :
    ∀ {l1 : List α} (l2 : List α) {a : α}, l1.find? p = some a → (l1 ++ l2).find? p = some a := by
  intro l1
  induction l1 with
  | nil => intro l2 a h; simp [List.find?] at h
  | cons b t ih =>
      intro l2 a h
      cases hb : p b with
      | true =>
          rw [List.find?_cons_of_pos _ hb] at h
          simpa [List.cons_append, List.find?_cons_of_pos _ hb] using h
      | false =>
          rw [List.find?_cons_of_neg _ (by simp [hb])] at h
          rw [List.cons_append, List.find?_cons_of_neg _ (by simp [hb])]
          exact ih l2 h

theorem find?_map_pred {α} {f : α → α} {q : α → Bool} (hq : ∀ t, q (f t) = q t) :
    ∀ {l : List α} {a : α}, l.find? q = some a → (l.map f).find? q = some (f a) := by
  intro l
  induction l with
  | nil => intro a h; simp [List.find?] at h
  | cons b t ih =>
      intro a h
      cases hb : q b with
      | true =>
          rw [List.find?_cons_of_pos _ hb] at h
          cases h
          simp [List.map_cons, List.find?_cons_of_pos _ ((hq b).trans hb)]
      | false =>
          rw [List.find?_cons_of_neg _ (by simp [hb])] at h
          rw [List.map_cons, List.find?_cons_of_neg _ (by simp [hq b, hb])]
          exact ih h

theorem map_self_idem {α} {f : α → α} (hf : ∀ x, f (f x) = f x) :
    ∀ l : List α, (l.map f).map f = l.map f := by
  intro l
  induction l with
  | nil => rfl
  | cons a t ih => simp [List.map_cons, hf a, ih]

theorem filter_eraseP {α} {q r : α → Bool} (h : ∀ x, q x = true → r x = false) :
    ∀ l : List α, (l.eraseP q).filter r = l.filter r := by
  intro l
  induction l with
  | nil => rfl
  | cons a t ih =>
      cases ha : q a with
      | true => simp [List.eraseP_cons, ha, List.filter_cons, h a ha]
      | false => simp [List.eraseP_cons, ha, List.filter_cons, ih]

/-! ## Claim theorems -/

/-- C1: the cursor pagination omits posts.  In a store holding exactly one
post, the initial call of findPostsByQuries with no cursor returns an empty
page and no nextCursor, so the iteration stops without ever returning the
post: the unconditional `skip: 1` drops the newest post of the first page,
contradicting "returns every post exactly once ... no omissions". -/
theorem claim1_first_page_omits_newest :
    findPostsByQuries dbClaim1 none none = { posts := [], nextCursor := none } ∧
      dbClaim1.posts.length = 1 := by
  constructor
  · rfl
  · rfl

/-- C5: on the concrete store with roots `A`, `B`, `C` in creation order,
replies `B1`, `B2` under `B`, and `C` soft-deleted, findComments returns
`[A (no replies), B (replies B1, B2), C (masked, no replies)]` ordered by
creation time. -/
theorem claim5_group_concrete_example :
    findComments dbClaim5 "post-1" none = Except.ok
      [ { comment :=
            { id := "A", userId := some "u1", postId := "p1", text := "a", parentCommentId := none
              level := 0, likes := 0, subCommentsCount := 0, createdAt := 1, updatedAt := 1
              deletedAt := none, user := aliceSummary, isLiked := false, isDeleted := false }
          subComments := [] },
        { comment :=
            { id := "B", userId := some "u1", postId := "p1", text := "b", parentCommentId := none
              level := 0, likes := 0, subCommentsCount := 2, createdAt := 2, updatedAt := 2
              deletedAt := none, user := aliceSummary, isLiked := false, isDeleted := false }
          subComments :=
            [ { id := "B1", userId := some "u1", postId := "p1", text := "b1", parentCommentId := some "B"
                level := 1, likes := 0, subCommentsCount := 0, createdAt := 4, updatedAt := 4
                deletedAt := none, user := aliceSummary, isLiked := false, isDeleted := false },
              { id := "B2", userId := some "u1", postId := "p1", text := "b2", parentCommentId := some "B"
                level := 1, likes := 0, subCommentsCount := 0, createdAt := 5, updatedAt := 5
                deletedAt := none, user := aliceSummary, isLiked := false, isDeleted := false } ] },
        { comment :=
            { id := "C", userId := none, postId := "p1", text := "", parentCommentId := none
              level := 0, likes := 0, subCommentsCount := 0, createdAt := 0, updatedAt := 0
              deletedAt := some 9, user := { id := none, username := none }
              isLiked := false, isDeleted := true }
          subComments := [] } ] := by
  rfl

/-- C4: in a list result, a soft-deleted comment is rendered with empty text,
zero likes, null author, epoch timestamps and isDeleted = true while its id,
parentCommentId and level survive; a live comment passes through unchanged
except for isDeleted = false; masking never removes an element. -/
theorem claim4_mask_deleted_at_read (l : List CView) (i : Nat) (v : CView)
    (h : l[i]? = some v) :
    (hideDeletedComments l).length = l.length ∧
    ∃ r, (hideDeletedComments l)[i]? = some r ∧
      (v.deletedAt.isSome →
        r.text = "" ∧ r.likes = 0 ∧ r.userId = none ∧
        r.user = { id := none, username := none } ∧
        r.createdAt = 0 ∧ r.updatedAt = 0 ∧ r.isDeleted = true ∧
        r.id = v.id ∧ r.parentCommentId = v.parentCommentId ∧ r.level = v.level) ∧
      (v.deletedAt = none →
        r.isDeleted = false ∧ r.id = v.id ∧ r.userId = v.userId ∧ r.text = v.text ∧
        r.likes = v.likes ∧ r.user = v.user ∧ r.createdAt = v.createdAt ∧
        r.updatedAt = v.updatedAt ∧ r.parentCommentId = v.parentCommentId ∧
        r.level = v.level ∧ r.subCommentsCount = v.subCommentsCount ∧
        r.deletedAt = v.deletedAt ∧ r.isLiked = v.isLiked) := by
  refine ⟨by simp [hideDeletedComments], ⟨renderComment v, ?_, ?_, ?_⟩⟩
  · simp [hideDeletedComments, List.getElem?_map, h]
  · intro hd
    obtain ⟨d, hdd⟩ := Option.isSome_iff_exists.mp hd
    simp [renderComment, hdd]
  · intro hd
    simp [renderComment, hd]

/-- C4 witness: the first element of `viewsClaim4` is soft-deleted and gets
masked in place. -/
theorem claim4_witness :
    (hideDeletedComments viewsClaim4).length = viewsClaim4.length ∧
    ∃ r, (hideDeletedComments viewsClaim4)[0]? = some r ∧
      (viewClaim4.deletedAt.isSome →
        r.text = "" ∧ r.likes = 0 ∧ r.userId = none ∧
        r.user = { id := none, username := none } ∧
        r.createdAt = 0 ∧ r.updatedAt = 0 ∧ r.isDeleted = true ∧
        r.id = viewClaim4.id ∧ r.parentCommentId = viewClaim4.parentCommentId ∧
        r.level = viewClaim4.level) ∧
      (viewClaim4.deletedAt = none →
        r.isDeleted = false ∧ r.id = viewClaim4.id ∧ r.userId = viewClaim4.userId ∧
        r.text = viewClaim4.text ∧ r.likes = viewClaim4.likes ∧ r.user = viewClaim4.user ∧
        r.createdAt = viewClaim4.createdAt ∧ r.updatedAt = viewClaim4.updatedAt ∧
        r.parentCommentId = viewClaim4.parentCommentId ∧ r.level = viewClaim4.level ∧
        r.subCommentsCount = viewClaim4.subCommentsCount ∧
        r.deletedAt = viewClaim4.deletedAt ∧ r.isLiked = viewClaim4.isLiked) :=
  claim4_mask_deleted_at_read viewsClaim4 0 viewClaim4 (by rfl)

/-- C8: direct lookup findComment fails with NotFound exactly when the comment
is absent or soft-deleted, returns the stored row otherwise, and a
soft-deleted comment still appears (masked) in list rendering. -/
theorem claim8_lookup_notfound_iff (db : DB) (cid : String) :
    (findComment db cid = Except.error AppError.NotFound ↔
      db.comments.find? (fun c => c.id == cid) = none ∨
      ∃ c, db.comments.find? (fun c2 => c2.id == cid) = some c ∧ c.deletedAt.isSome) ∧
    (∀ c, db.comments.find? (fun c2 => c2.id == cid) = some c → c.deletedAt = none →
      findComment db cid = Except.ok c) ∧
    (∀ (l : List CView) (v : CView), v ∈ l → v.deletedAt.isSome →
      ∃ r ∈ hideDeletedComments l, r.id = v.id ∧ r.isDeleted = true) := by
  refine ⟨?_, ?_, ?_⟩
  · cases hf : db.comments.find? (fun c => c.id == cid) with
    | none => simp [findComment, hf]
    | some c =>
        cases hd : c.deletedAt with
        | none => simp [findComment, hf, hd]
        | some d => simp [findComment, hf, hd]
  · intro c hf hd
    simp [findComment, hf, hd]
  · intro l v hv hd
    obtain ⟨d, hdd⟩ := Option.isSome_iff_exists.mp hd
    exact ⟨renderComment v, List.mem_map.mpr ⟨v, hv, rfl⟩, by simp [renderComment, hdd]⟩

/-- C8 witness: in `dbClaim8`, looking up the soft-deleted comment `G` fails
with NotFound while the live comment `L` is returned. -/
theorem claim8_witness :
    findComment dbClaim8 "G" = Except.error AppError.NotFound ∧
    findComment dbClaim8 "L" = Except.ok (dbClaim8.comments.get ⟨0, by decide⟩) ∧
    (∃ r ∈ hideDeletedComments [viewClaim8], r.id = "G" ∧ r.isDeleted = true) := by
  refine ⟨?_, ?_, ?_⟩
  · exact ((claim8_lookup_notfound_iff dbClaim8 "G").1).mpr
      (Or.inr ⟨dbClaim8.comments.get ⟨1, by decide⟩, by decide, by decide⟩)
  · exact (claim8_lookup_notfound_iff dbClaim8 "L").2.1
      (dbClaim8.comments.get ⟨0, by decide⟩) (by decide) (by decide)
  · exact (claim8_lookup_notfound_iff dbClaim8 "G").2.2 [viewClaim8] viewClaim8
      (by decide) (by decide)

/-- C9: deleting a live comment fails with Unauthorized for a non-author and
leaves the store untouched; for the author it writes only the delete
timestamp of that comment, leaving every other field of every comment and
the whole postStats table unchanged. -/
theorem claim9_delete_auth_and_frame (db : DB) (now : Nat) (uid cid : String) (c : Comment)
    (hf : db.comments.find? (fun x => x.id == cid) = some c)
    (hlive : c.deletedAt = none) :
    (c.userId ≠ uid → deleteComment db now uid cid = (Except.error AppError.Unauthorized, db)) ∧
    (c.userId = uid →
      deleteComment db now uid cid =
        (Except.ok { c with deletedAt := some now },
         { db with comments := db.comments.map (markDeleted now cid) }) ∧
      ({ db with comments := db.comments.map (markDeleted now cid) }).postStats = db.postStats ∧
      (∀ x : Comment, markDeleted now cid x = { x with deletedAt := (markDeleted now cid x).deletedAt })) := by
  constructor
  · intro hne
    have hb : (c.userId == uid) = false := beq_eq_false_iff_ne.mpr hne
    simp [deleteComment, findComment, hf, hlive, hb]
  · intro heq
    have hb : (c.userId == uid) = true := by simp [heq]
    refine ⟨?_, rfl, ?_⟩
    · simp [deleteComment, findComment, hf, hlive, hb, updateCommentById, markDeleted]
    · intro x
      by_cases hx : (x.id == cid) = true
      · simp [markDeleted, hx]
      · simp [markDeleted, hx]

/-- C9 witness: in `dbClaim9`, `u2` cannot delete `K`, while `u1` soft-deletes
it touching only the delete timestamp. -/
theorem claim9_witness :
    deleteComment dbClaim9 20 "u2" "K" = (Except.error AppError.Unauthorized, dbClaim9) ∧
    deleteComment dbClaim9 20 "u1" "K" =
      (Except.ok { commentClaim9 with deletedAt := some 20 },
       { dbClaim9 with comments := dbClaim9.comments.map (markDeleted 20 "K") }) ∧
    ({ dbClaim9 with comments := dbClaim9.comments.map (markDeleted 20 "K") }).postStats =
      dbClaim9.postStats := by
  refine ⟨?_, ?_, ?_⟩
  · exact (claim9_delete_auth_and_frame dbClaim9 20 "u2" "K" commentClaim9
      (by decide) (by decide)).1 (by decide)
  · exact ((claim9_delete_auth_and_frame dbClaim9 20 "u1" "K" commentClaim9
      (by decide) (by decide)).2 rfl).1
  · exact ((claim9_delete_auth_and_frame dbClaim9 20 "u1" "K" commentClaim9
      (by decide) (by decide)).2 rfl).2.1

/-- Every element of a bucket of the subCommentsMap was bucketed under its own
parentCommentId. -/
theorem mem_foldl_bucketStep :
    ∀ (l : List RView) (m : String → List RView) (k : String) (x : RView),
      x ∈ (l.foldl bucketStep m) k → x ∈ m k ∨ x.parentCommentId = some k := by
  intro l
  induction l with
  | nil => intro m k x hx; exact Or.inl hx
  | cons c t ih =>
      intro m k x hx
      rw [List.foldl_cons] at hx
      rcases ih (bucketStep m c) k x hx with hm | hp
      · cases hpc : c.parentCommentId with
        | none =>
            simp only [bucketStep, hpc] at hm
            exact Or.inl hm
        | some p =>
            by_cases hp0 : p = ""
            · simp [bucketStep, hpc, hp0] at hm
              exact Or.inl hm
            · simp only [bucketStep, hpc, if_neg hp0] at hm
              by_cases hkp : k = p
              · subst hkp
                rw [if_pos rfl] at hm
                rcases List.mem_append.mp hm with hm | hm
                · exact Or.inl hm
                · rw [List.mem_singleton] at hm
                  subst hm
                  exact Or.inr hpc
              · rw [if_neg hkp] at hm
                exact Or.inl hm
      · exact Or.inr hp

/-- C10: a comment whose parentCommentId is non-null but is not the id of any
root comment of the list appears in no root's subComments and not at the top
level of groupSubComments — it silently vanishes from the output. -/
theorem claim10_orphans_dropped (l : List RView) (c : RView) (p : String)
    (hc : c ∈ l) (hp : c.parentCommentId = some p)
    (horph : ∀ r ∈ l, r.parentCommentId = none → r.id ≠ p) :
    ∀ g ∈ groupSubComments l, g.comment ≠ c ∧ c ∉ g.subComments := by
  intro g hg
  unfold groupSubComments at hg
  obtain ⟨r, hr, rfl⟩ := List.mem_map.mp hg
  obtain ⟨hrl, hroot⟩ := List.mem_filter.mp hr
  have hrnone : r.parentCommentId = none := by
    simpa [Option.isNone_iff_eq_none] using hroot
  constructor
  · intro hgc
    have hrc : r = c := hgc
    rw [hrc, hp] at hrnone
    exact Option.noConfusion hrnone
  · intro hmem
    rcases mem_foldl_bucketStep l (fun _ => []) r.id c hmem with h0 | hpar
    · simp at h0
    · rw [hp] at hpar
      have : p = r.id := by injection hpar
      exact horph r hrl hrnone this.symm

/-- C10 witness: the orphan reply of `listClaim10` (parent id "missing" is no
root's id) appears nowhere in the grouped output. -/
theorem claim10_witness :
    groupedClaim10.comment ≠ orphanClaim10 ∧ orphanClaim10 ∉ groupedClaim10.subComments :=
  claim10_orphans_dropped listClaim10 orphanClaim10 "missing"
    (by decide) (by decide) (by decide) groupedClaim10 (by decide)

/-- findComment succeeds on a stored live comment. -/
theorem findComment_ok {db : DB} {cid : String} {c : Comment}
    (hf : db.comments.find? (fun x => x.id == cid) = some c)
    (hd : c.deletedAt = none) : findComment db cid = Except.ok c := by
  simp [findComment, hf, hd]

/-- updatePostCommentsCount succeeds when the post has a stats row. -/
theorem updatePostCommentsCount_isSome {db : DB} {pid : String}
    (h : (db.postStats.find? (fun s => s.postId == pid)).isSome) :
    ∃ n db2, updatePostCommentsCount db pid = (Except.ok n, db2) := by
  obtain ⟨s, hs⟩ := Option.isSome_iff_exists.mp h
  refine ⟨(db.comments.filter (fun c => c.postId == pid)).length,
    { db with postStats := db.postStats.map (updWhere pid (fun t =>
        { t with commentsCount := (db.comments.filter (fun c => c.postId == pid)).length })) },
    ?_⟩
  simp [updatePostCommentsCount, updatePostStatsByPostId, hs]

/-- recountAfterCreate succeeds for a reply when the parent row is present and
the post has a stats row. -/
theorem recountAfterCreate_some_ok (db : DB) (c pc : Comment)
    (hfp : (db.comments.find? (fun x => x.id == pc.id)).isSome)
    (hstats : (db.postStats.find? (fun s => s.postId == c.postId)).isSome) :
    ∃ db2, recountAfterCreate db c (some pc) = (Except.ok c, db2) := by
  obtain ⟨x, hx⟩ := Option.isSome_iff_exists.mp hfp
  obtain ⟨s, hs⟩ := Option.isSome_iff_exists.mp hstats
  refine ⟨{ db with
      comments := db.comments.map (fun y =>
        if y.id == pc.id then
          { y with subCommentsCount :=
              (db.comments.filter (fun z => z.parentCommentId == some pc.id)).length }
        else y)
      postStats := db.postStats.map (updWhere c.postId (fun t =>
        { t with commentsCount :=
            ((db.comments.map (fun y =>
              if y.id == pc.id then
                { y with subCommentsCount :=
                    (db.comments.filter (fun z => z.parentCommentId == some pc.id)).length }
              else y)).filter (fun z => z.postId == c.postId)).length })) }, ?_⟩
  simp only [recountAfterCreate, updateCommentById, hx, updatePostCommentsCount,
    updatePostStatsByPostId]
  simp only [hs]

/-- C3: creating a comment with a parentCommentId fails with NotFound when the
parent is absent or soft-deleted, succeeds with level = parent.level + 1 = 1
on a live root parent (given the post has its stats row), and fails with
BadRequest, writing nothing, when the parent is itself a reply. -/
theorem claim3_reply_levels :
    (∀ (db : DB) (now : Nat) (nid uid text postId pid : String),
      db.comments.find? (fun x => x.id == pid) = none →
      createComment db now nid uid text postId (some pid) =
        (Except.error AppError.NotFound, db)) ∧
    (∀ (db : DB) (now : Nat) (nid uid text postId pid : String) (parent : Comment),
      db.comments.find? (fun x => x.id == pid) = some parent →
      parent.deletedAt.isSome →
      createComment db now nid uid text postId (some pid) =
        (Except.error AppError.NotFound, db)) ∧
    (∀ (db : DB) (now : Nat) (nid uid text postId pid : String) (parent : Comment),
      db.comments.find? (fun x => x.id == pid) = some parent →
      parent.deletedAt = none → parent.level = 0 →
      (db.postStats.find? (fun s => s.postId == postId)).isSome →
      ∃ c db2, createComment db now nid uid text postId (some pid) = (Except.ok c, db2) ∧
        c.level = parent.level + 1 ∧ c.level = 1) ∧
    (∀ (db : DB) (now : Nat) (nid uid text postId pid : String) (parent : Comment),
      db.comments.find? (fun x => x.id == pid) = some parent →
      parent.deletedAt = none → parent.level = 1 →
      createComment db now nid uid text postId (some pid) =
        (Except.error AppError.BadRequest, db)) := by
  refine ⟨?_, ?_, ?_, ?_⟩
  · intro db now nid uid text postId pid hf
    simp [createComment, findComment, hf]
  · intro db now nid uid text postId pid parent hf hdel
    obtain ⟨d, hd⟩ := Option.isSome_iff_exists.mp hdel
    simp [createComment, findComment, hf, hd]
  · intro db now nid uid text postId pid parent hf hdel hlvl hstats
    have h1 : (parent.id == pid) = true := by simpa using List.find?_some hf
    have hpid : parent.id = pid := eq_of_beq h1
    subst hpid
    have hfc : findComment db parent.id = Except.ok parent := findComment_ok hf hdel
    have hfp : (({ db with comments := db.comments ++
        [newCommentRow now nid uid text postId (some parent.id) (parent.level + 1)] } : DB).comments.find?
          (fun x => x.id == parent.id)).isSome :=
      Option.isSome_iff_exists.mpr ⟨parent, find?_append_some _ hf⟩
    obtain ⟨db2, hrec⟩ := recountAfterCreate_some_ok
      { db with comments := db.comments ++
        [newCommentRow now nid uid text postId (some parent.id) (parent.level + 1)] }
      (newCommentRow now nid uid text postId (some parent.id) (parent.level + 1))
      parent hfp hstats
    refine ⟨newCommentRow now nid uid text postId (some parent.id) (parent.level + 1), db2,
      ?_, rfl, by simp [newCommentRow, hlvl]⟩
    simp only [createComment, hfc]
    rw [if_neg (by omega : ¬ parent.level + 1 ≥ 2)]
    exact hrec
  · intro db now nid uid text postId pid parent hf hdel hlvl
    have hfc : findComment db pid = Except.ok parent := findComment_ok hf hdel
    simp only [createComment, hfc]
    rw [if_pos (by omega : parent.level + 1 ≥ 2)]

/-- C3 witness: in `dbClaim3`, replying to a missing id, to the deleted root
`D`, to the live root `R` (level 0) and to the reply `S` (level 1) behave as
claimed. -/
theorem claim3_witness :
    createComment dbClaim3 9 "N" "u3" "t" "p1" (some "zz") =
      (Except.error AppError.NotFound, dbClaim3) ∧
    createComment dbClaim3 9 "N" "u3" "t" "p1" (some "D") =
      (Except.error AppError.NotFound, dbClaim3) ∧
    (∃ c db2, createComment dbClaim3 9 "N" "u3" "t" "p1" (some "R") = (Except.ok c, db2) ∧
      c.level = (dbClaim3.comments.get ⟨0, by decide⟩).level + 1 ∧ c.level = 1) ∧
    createComment dbClaim3 9 "N" "u3" "t" "p1" (some "S") =
      (Except.error AppError.BadRequest, dbClaim3) := by
  refine ⟨?_, ?_, ?_, ?_⟩
  · exact claim3_reply_levels.1 dbClaim3 9 "N" "u3" "t" "p1" "zz" (by decide)
  · exact claim3_reply_levels.2.1 dbClaim3 9 "N" "u3" "t" "p1" "D"
      (dbClaim3.comments.get ⟨1, by decide⟩) (by decide) (by decide)
  · exact claim3_reply_levels.2.2.1 dbClaim3 9 "N" "u3" "t" "p1" "R"
      (dbClaim3.comments.get ⟨0, by decide⟩) (by decide) (by decide) (by decide) (by decide)
  · exact claim3_reply_levels.2.2.2 dbClaim3 9 "N" "u3" "t" "p1" "S"
      (dbClaim3.comments.get ⟨2, by decide⟩) (by decide) (by decide) (by decide)

/-- A successful updatePostCommentsCount leaves the comments untouched and
writes the unfiltered per-post comment count on every matching stats row. -/
theorem updatePCC_ok_spec {db : DB} {pid : String} {n : Nat} {db2 : DB}
    (h : updatePostCommentsCount db pid = (Except.ok n, db2)) :
    db2.comments = db.comments ∧
    ∀ s ∈ db2.postStats, s.postId = pid →
      s.commentsCount = (db2.comments.filter (fun x => x.postId == pid)).length := by
  cases hfs : db.postStats.find? (fun s => s.postId == pid) with
  | none => simp [updatePostCommentsCount, updatePostStatsByPostId, hfs] at h
  | some s0 =>
      simp only [updatePostCommentsCount, updatePostStatsByPostId, hfs] at h
      rw [Prod.mk.injEq] at h
      obtain ⟨-, hdb⟩ := h
      subst hdb
      refine ⟨rfl, ?_⟩
      intro s hs hsp
      obtain ⟨t, ht, heq⟩ := List.mem_map.mp hs
      subst heq
      by_cases hpt : (t.postId == pid) = true
      · rw [updWhere_pos hpt]
      · rw [updWhere_neg hpt] at hsp
        exact absurd hsp (by simpa using hpt)

/-- A successful recountAfterCreate ends with the post's commentsCount equal
to the unfiltered count of its comments. -/
theorem recount_ok_spec {db : DB} {c : Comment} {po : Option Comment} {c2 : Comment} {db2 : DB}
    (h : recountAfterCreate db c po = (Except.ok c2, db2)) :
    ∀ s ∈ db2.postStats, s.postId = c.postId →
      s.commentsCount = (db2.comments.filter (fun x => x.postId == c.postId)).length := by
  cases po with
  | none =>
      cases hu : updatePostCommentsCount db c.postId with
      | mk r d =>
          cases r with
          | error e => simp [recountAfterCreate, hu] at h
          | ok n =>
              simp only [recountAfterCreate, hu] at h
              rw [Prod.mk.injEq] at h
              obtain ⟨-, hdb⟩ := h
              subst hdb
              exact (updatePCC_ok_spec hu).2
  | some pc =>
      cases hU : updateCommentById db pc.id (fun x => { x with subCommentsCount :=
          (db.comments.filter (fun z => z.parentCommentId == some pc.id)).length }) with
      | mk r1 d1 =>
          cases r1 with
          | error e => simp [recountAfterCreate, hU] at h
          | ok y =>
              cases hu : updatePostCommentsCount d1 c.postId with
              | mk r2 d2 =>
                  cases r2 with
                  | error e => simp [recountAfterCreate, hU, hu] at h
                  | ok n =>
                      simp only [recountAfterCreate, hU, hu] at h
                      rw [Prod.mk.injEq] at h
                      obtain ⟨-, hdb⟩ := h
                      subst hdb
                      exact (updatePCC_ok_spec hu).2

/-- C7: after every successful createComment, the persisted commentsCount of
the post equals the count of all its comments, soft-deleted ones included
(the recompute filters by postId only, never by the delete timestamp). -/
theorem claim7_comments_count_total (db : DB) (now : Nat) (nid uid text postId : String)
    (pcid : Option String) (c : Comment) (db2 : DB)
    (h : createComment db now nid uid text postId pcid = (Except.ok c, db2)) :
    ∀ s ∈ db2.postStats, s.postId = postId →
      s.commentsCount = (db2.comments.filter (fun x => x.postId == postId)).length := by
  cases pcid with
  | none =>
      simp only [createComment] at h
      exact recount_ok_spec h
  | some pid =>
      cases hfc : findComment db pid with
      | error e => simp [createComment, hfc] at h
      | ok parent =>
          by_cases hl : parent.level + 1 ≥ 2
          · simp only [createComment, hfc] at h
            rw [if_pos hl] at h
            exact absurd h (by simp)
          · simp only [createComment, hfc] at h
            rw [if_neg hl] at h
            exact recount_ok_spec h

/-- C7 witness: creating a comment on `dbClaim7` (which already holds one
soft-deleted comment) persists commentsCount = 2, the count of all comments
including the soft-deleted one. -/
theorem claim7_witness :
    ({ postId := "p1", likes := 0, commentsCount := 2 } : PostStats).commentsCount =
      (dbClaim7b.comments.filter (fun x => x.postId == "p1")).length :=
  claim7_comments_count_total dbClaim7 10 "N" "u2" "hi" "p1" none commentClaim7 dbClaim7b
    (by decide) { postId := "p1", likes := 0, commentsCount := 2 } (by decide) (by decide)

/-- find? over an append whose first part has no match. -/
theorem find?_append_none {α} {p : α → Bool} :
    ∀ {l1 : List α} (l2 : List α), l1.find? p = none → (l1 ++ l2).find? p = l2.find? p := by
  intro l1
  induction l1 with
  | nil => intro l2 h; simp
  | cons b t ih =>
      intro l2 h
      cases hb : p b with
      | true => rw [List.find?_cons_of_pos _ hb] at h; exact absurd h (by simp)
      | false =>
          rw [List.find?_cons_of_neg _ (by simp [hb])] at h
          rw [List.cons_append, List.find?_cons_of_neg _ (by simp [hb])]
          exact ih l2 h


/-- The likes-recompute rewrite does not change a row's postId. -/
theorem updWhere_likesUpd_postId (dbx : DB) (p : String) (t : PostStats) :
    (updWhere p (likesUpd dbx p) t).postId = t.postId := by
  by_cases ht : (t.postId == p) = true
  · simp [updWhere, likesUpd, ht]
  · simp [updWhere, ht]

/-- The likes-recompute rewrite is idempotent on each row. -/
theorem updWhere_likesUpd_idem (dbx : DB) (p : String) (x : PostStats) :
    updWhere p (likesUpd dbx p) (updWhere p (likesUpd dbx p) x) =
      updWhere p (likesUpd dbx p) x := by
  by_cases hx : (x.postId == p) = true
  · simp [updWhere, likesUpd, hx]
  · simp [updWhere, hx]

/-- Calling likePost on the state a recompute produced, when the join record
exists, finds the record, skips the insert, and rewrites the stats to the
same values: the whole store is a fixed point. -/
theorem likePost_after_update (dbx : DB) {u p : String} {x : PostLike} {s0 : PostStats}
    (hA : dbx.postLikes.find? (fun l => l.postId == p && l.userId == u) = some x)
    (hfs : dbx.postStats.find? (fun t => t.postId == p) = some s0) :
    likePost { dbx with postStats := dbx.postStats.map (updWhere p (likesUpd dbx p)) } u p =
      (Except.ok (likesUpd dbx p s0),
       { dbx with postStats := dbx.postStats.map (updWhere p (likesUpd dbx p)) }) := by
  have hA2 : ({ dbx with postStats := dbx.postStats.map (updWhere p (likesUpd dbx p)) } : DB).postLikes.find? (fun l => l.postId == p && l.userId == u) = some x := hA
  have hps0 : (s0.postId == p) = true := by simpa using List.find?_some hfs
  have hfind2 : (dbx.postStats.map (updWhere p (likesUpd dbx p))).find? (fun t => t.postId == p) = some (updWhere p (likesUpd dbx p) s0) :=
    find?_map_pred (fun t => by rw [updWhere_likesUpd_postId]) hfs
  simp only [likePost, hA2, updatePostLikes, updatePostStatsByPostId]
  rw [hfind2]
  rw [Prod.mk.injEq]
  constructor
  · rw [updWhere_pos hps0]
    rfl
  · show ({ dbx with postStats := (dbx.postStats.map (updWhere p (likesUpd dbx p))).map (updWhere p (likesUpd dbx p)) } : DB) = { dbx with postStats := dbx.postStats.map (updWhere p (likesUpd dbx p)) }
    rw [map_self_idem (updWhere_likesUpd_idem dbx p) dbx.postStats]

/-- A second likePost by the same user is a no-op on the whole store, and the
pair has exactly one join record afterwards. -/
theorem likePost_idem {db : DB} {u p : String} {s : PostStats} {db2 : DB}
    (hdup : countUserLikes db p u ≤ 1)
    (h : likePost db u p = (Except.ok s, db2)) :
    likePost db2 u p = (Except.ok s, db2) ∧ countUserLikes db2 p u = 1 := by
  cases hA : db.postLikes.find? (fun l => l.postId == p && l.userId == u) with
  | some x =>
      simp only [likePost, hA] at h
      cases hfs : db.postStats.find? (fun t => t.postId == p) with
      | none => simp [updatePostLikes, updatePostStatsByPostId, hfs] at h
      | some s0 =>
          simp only [updatePostLikes, updatePostStatsByPostId, hfs] at h
          rw [Prod.mk.injEq, Except.ok.injEq] at h
          obtain ⟨hs, hdb⟩ := h
          subst hs
          subst hdb
          constructor
          · exact likePost_after_update db hA hfs
          · have hmem : x ∈ db.postLikes.filter (fun l => l.postId == p && l.userId == u) :=
              List.mem_filter.mpr ⟨List.mem_of_find?_eq_some hA, by simpa using List.find?_some hA⟩
            have hpos : 0 < (db.postLikes.filter (fun l => l.postId == p && l.userId == u)).length :=
              List.length_pos.mpr (List.ne_nil_of_mem hmem)
            have hdup2 : (db.postLikes.filter (fun l => l.postId == p && l.userId == u)).length ≤ 1 :=
              hdup
            show (db.postLikes.filter (fun l => l.postId == p && l.userId == u)).length = 1
            omega
  | none =>
      simp only [likePost, hA] at h
      cases hfs : db.postStats.find? (fun t => t.postId == p) with
      | none => simp [updatePostLikes, updatePostStatsByPostId, hfs] at h
      | some s0 =>
          simp only [updatePostLikes, updatePostStatsByPostId, hfs] at h
          rw [Prod.mk.injEq, Except.ok.injEq] at h
          obtain ⟨hs, hdb⟩ := h
          subst hs
          subst hdb
          have hA2 : ((db.postLikes ++ [({ postId := p, userId := u } : PostLike)]).find? (fun l => l.postId == p && l.userId == u)) = some ({ postId := p, userId := u } : PostLike) := by
            rw [find?_append_none _ hA]
            exact List.find?_cons_of_pos _ (by simp)
          constructor
          · exact likePost_after_update
              { db with postLikes := db.postLikes ++ [({ postId := p, userId := u } : PostLike)] }
              hA2 hfs
          · have hnil : db.postLikes.filter (fun l => l.postId == p && l.userId == u) = [] :=
              List.filter_eq_nil_iff.mpr (List.find?_eq_none.mp hA)
            show ((db.postLikes ++ [({ postId := p, userId := u } : PostLike)]).filter (fun l => l.postId == p && l.userId == u)).length = 1
            rw [List.filter_append, hnil]
            simp

/-- A likes recompute on post `p` preserves the cache invariant whenever the
join counts of every other post are unchanged and the stats table is
untouched since the invariant last held. -/
theorem updLikes_snd_inv (db db1 : DB) (p : String)
    (hstats : db1.postStats = db.postStats)
    (hoth : ∀ q, q ≠ p → countLikes db1 q = countLikes db q)
    (hinv : likesInvariant db) :
    likesInvariant (updatePostLikes db1 p).2 := by
  cases hfs : db1.postStats.find? (fun t => t.postId == p) with
  | none =>
      simp only [updatePostLikes, updatePostStatsByPostId, hfs]
      intro s hs
      have hsmem : s ∈ db.postStats := by rw [← hstats]; exact hs
      have hne : s.postId ≠ p := by simpa using List.find?_eq_none.mp hfs s hs
      rw [hinv s hsmem]
      exact (hoth s.postId hne).symm
  | some s0 =>
      simp only [updatePostLikes, updatePostStatsByPostId, hfs]
      intro s hs
      obtain ⟨t, ht, heq⟩ := List.mem_map.mp hs
      subst heq
      by_cases hpt : (t.postId == p) = true
      · rw [updWhere_pos hpt]
        have hteq : t.postId = p := by simpa using hpt
        show countLikes db1 p = countLikes db1 t.postId
        rw [hteq]
      · rw [updWhere_neg hpt]
        have hne : t.postId ≠ p := by simpa using hpt
        have htmem : t ∈ db.postStats := by rw [← hstats]; exact ht
        show t.likes = countLikes db1 t.postId
        rw [hinv t htmem]
        exact (hoth t.postId hne).symm

/-- Each like/unlike request preserves the likes-cache invariant, whether it
succeeds or fails on a missing stats row. -/
theorem applyLikeOp_inv {db : DB} (op : LikeOp) (hinv : likesInvariant db) :
    likesInvariant (applyLikeOp db op) := by
  cases op with
  | like u p =>
      show likesInvariant (likePost db u p).2
      cases hA : db.postLikes.find? (fun l => l.postId == p && l.userId == u) with
      | some x =>
          simp only [likePost, hA]
          exact updLikes_snd_inv db db p rfl (fun q _ => rfl) hinv
      | none =>
          simp only [likePost, hA]
          refine updLikes_snd_inv db
            { db with postLikes := db.postLikes ++ [({ postId := p, userId := u } : PostLike)] }
            p rfl (fun q hq => ?_) hinv
          show ((db.postLikes ++ [({ postId := p, userId := u } : PostLike)]).filter (fun l => l.postId == q)).length = countLikes db q
          rw [List.filter_append]
          have hone : ([({ postId := p, userId := u } : PostLike)].filter (fun l => l.postId == q)) = [] := by
            have hpq : ((p : String) == q) = false := beq_eq_false_iff_ne.mpr (Ne.symm hq)
            simp [List.filter_cons, hpq]
          rw [hone]
          simp [countLikes]
  | unlike u p =>
      show likesInvariant (unlikePost db u p).2
      cases hA : db.postLikes.find? (fun l => l.postId == p && l.userId == u) with
      | none =>
          simp only [unlikePost, hA]
          exact updLikes_snd_inv db db p rfl (fun q _ => rfl) hinv
      | some x =>
          simp only [unlikePost, hA]
          refine updLikes_snd_inv db
            { db with postLikes := db.postLikes.eraseP (fun l => l.postId == p && l.userId == u) }
            p rfl (fun q hq => ?_) hinv
          show ((db.postLikes.eraseP (fun l => l.postId == p && l.userId == u)).filter (fun l => l.postId == q)).length = countLikes db q
          have himp : ∀ y : PostLike, (y.postId == p && y.userId == u) = true → (y.postId == q) = false := by
            intro y hy
            have hy1 : y.postId = p := eq_of_beq ((Bool.and_eq_true _ _).mp hy).1
            rw [hy1]
            exact beq_eq_false_iff_ne.mpr (Ne.symm hq)
          rw [filter_eraseP himp db.postLikes]
          rfl

/-- Sequences of like/unlike requests preserve the likes-cache invariant. -/
theorem runLikeOps_inv (ops : List LikeOp) :
    ∀ db : DB, likesInvariant db → likesInvariant (runLikeOps db ops) := by
  induction ops with
  | nil => intro db h; exact h
  | cons op t ih =>
      intro db h
      show likesInvariant (runLikeOps (applyLikeOp db op) t)
      exact ih _ (applyLikeOp_inv op h)

/-- C2: likePost is an idempotent toggle — a second like by the same user
returns the same stats and changes nothing, leaving exactly one join record
for the pair — and after any sequence of like/unlike requests the persisted
stats.likes of every post with a stats row equals the join-table count (the
count is recomputed from the join table, never incremented). -/
theorem claim2_like_idempotent_toggle :
    (∀ (db : DB) (u p : String) (s : PostStats) (db2 : DB),
      countUserLikes db p u ≤ 1 →
      likePost db u p = (Except.ok s, db2) →
      likePost db2 u p = (Except.ok s, db2) ∧ countUserLikes db2 p u = 1) ∧
    (∀ (db : DB) (ops : List LikeOp),
      likesInvariant db → likesInvariant (runLikeOps db ops)) :=
  ⟨fun _ _ _ _ _ hdup h => likePost_idem hdup h,
   fun db ops h => runLikeOps_inv ops db h⟩

/-- C2 witness: a first like on `dbClaim2` produces `dbClaim2b`; the second
like is a no-op with one join record, and a like-then-unlike sequence keeps
stats.likes equal to the join count. -/
theorem claim2_witness :
    (likePost dbClaim2b "u1" "p1" = (Except.ok statsClaim2, dbClaim2b) ∧
      countUserLikes dbClaim2b "p1" "u1" = 1) ∧
    likesInvariant (runLikeOps dbClaim2 [LikeOp.like "u1" "p1", LikeOp.unlike "u1" "p1"]) :=
  ⟨claim2_like_idempotent_toggle.1 dbClaim2 "u1" "p1" statsClaim2 dbClaim2b
      (by decide) (by decide),
   claim2_like_idempotent_toggle.2 dbClaim2
      [LikeOp.like "u1" "p1", LikeOp.unlike "u1" "p1"]
      (by show ∀ s ∈ dbClaim2.postStats, s.likes = countLikes dbClaim2 s.postId; decide)⟩

/-- C6 counterexample: in a store whose slugs already contain both "hello"
(the slug derived from "Hello") and "hello-x" (its variant for the generated
suffix "x"), createPost is blocked by the slug unique constraint — creation
is not always unblocked by the single random suffix. -/
theorem claim6_counterexample :
    createPost dbClaim6 10 "p9" "x" "u1" "Hello" "b" =
      (Except.error AppError.UniqueViolation, dbClaim6) ∧
    slugifyModel "Hello" = "hello" ∧
    dbClaim6.posts.map (fun q => q.slug) = ["hello", "hello-x"] := by
  refine ⟨?_, ?_, ?_⟩ <;> decide

/-- C6 (amended): createPost derives the slug from the title; when the derived
slug already exists a generated suffix is appended; provided the chosen slug
(derived, or suffixed after a collision) is itself fresh, creation succeeds,
the post and a zeroed stats row are persisted and the created post is
returned with a slug unique among the pre-existing ones.  A collision of the
suffixed slug still blocks creation (see the counterexample). -/
theorem claim6_slug_amended (db : DB) (now : Nat) (nid rid uid title body : String)
    (hstats : ∀ s ∈ db.postStats, s.postId ≠ nid) :
    ((∀ q ∈ db.posts, q.slug ≠ slugifyModel title) →
      ∃ post db2, createPost db now nid rid uid title body = (Except.ok post, db2) ∧
        post.slug = slugifyModel title ∧ post.id = nid ∧
        db2.posts = db.posts ++ [post] ∧
        db2.postStats = db.postStats ++ [{ postId := nid, likes := 0, commentsCount := 0 }] ∧
        ∀ q ∈ db.posts, q.slug ≠ post.slug) ∧
    ((∃ q ∈ db.posts, q.slug = slugifyModel title) →
      (∀ q ∈ db.posts, q.slug ≠ slugifyModel title ++ "-" ++ rid) →
      ∃ post db2, createPost db now nid rid uid title body = (Except.ok post, db2) ∧
        post.slug = slugifyModel title ++ "-" ++ rid ∧ post.id = nid ∧
        db2.posts = db.posts ++ [post] ∧
        db2.postStats = db.postStats ++ [{ postId := nid, likes := 0, commentsCount := 0 }] ∧
        ∀ q ∈ db.posts, q.slug ≠ post.slug) := by
  have hstats0 : db.postStats.any (fun s => s.postId == nid) = false :=
    List.any_eq_false.mpr (fun s hs => by simpa using hstats s hs)
  constructor
  · intro hfresh
    have hany0 : db.posts.any (fun q => q.slug == slugifyModel title) = false :=
      List.any_eq_false.mpr (fun q hq => by simpa using hfresh q hq)
    exact
      let post : Post := { id := nid, userId := uid, slug := slugifyModel title, title := title, body := body, createdAt := now }
      let db2 : DB := { db with posts := db.posts ++ [post], postStats := db.postStats ++ [{ postId := nid, likes := 0, commentsCount := 0 }] }
      ⟨post, db2, by simp [createPost, hany0, hstats0], rfl, rfl, rfl, rfl, hfresh⟩
  · intro hex hfresh2
    have hany1 : db.posts.any (fun q => q.slug == slugifyModel title) = true := by
      obtain ⟨q, hq, heq⟩ := hex
      exact List.any_eq_true.mpr ⟨q, hq, by simpa using heq⟩
    have hany2 : db.posts.any (fun q => q.slug == slugifyModel title ++ "-" ++ rid) = false :=
      List.any_eq_false.mpr (fun q hq => by simpa using hfresh2 q hq)
    exact
      let post : Post := { id := nid, userId := uid, slug := slugifyModel title ++ "-" ++ rid, title := title, body := body, createdAt := now }
      let db2 : DB := { db with posts := db.posts ++ [post], postStats := db.postStats ++ [{ postId := nid, likes := 0, commentsCount := 0 }] }
      ⟨post, db2, by simp [createPost, hany1, hany2, hstats0], rfl, rfl, rfl, rfl, hfresh2⟩

/-- C6 witness: on a store holding only the slug "hello", a fresh title
succeeds with the derived slug, and the colliding title "Hello" succeeds
with the suffixed slug "hello-y". -/
theorem claim6_witness :
    (∃ post db2, createPost dbClaim6b 11 "p8" "z" "u1" "World" "b" = (Except.ok post, db2) ∧
      post.slug = slugifyModel "World" ∧ post.id = "p8" ∧
      db2.posts = dbClaim6b.posts ++ [post] ∧
      db2.postStats = dbClaim6b.postStats ++ [{ postId := "p8", likes := 0, commentsCount := 0 }] ∧
      ∀ q ∈ dbClaim6b.posts, q.slug ≠ post.slug) ∧
    (∃ post db2, createPost dbClaim6b 10 "p9" "y" "u1" "Hello" "b" = (Except.ok post, db2) ∧
      post.slug = slugifyModel "Hello" ++ "-" ++ "y" ∧ post.id = "p9" ∧
      db2.posts = dbClaim6b.posts ++ [post] ∧
      db2.postStats = dbClaim6b.postStats ++ [{ postId := "p9", likes := 0, commentsCount := 0 }] ∧
      ∀ q ∈ dbClaim6b.posts, q.slug ≠ post.slug) :=
  ⟨(claim6_slug_amended dbClaim6b 11 "p8" "z" "u1" "World" "b" (by decide)).1 (by decide),
   (claim6_slug_amended dbClaim6b 10 "p9" "y" "u1" "Hello" "b" (by decide)).2
      (by decide) (by decide)⟩
